import Mathlib

/-!
Verification development for a Telegram bot that gates Tor identity rotation
(source: torbot.py). The bot keeps three in-memory per-user mappings
(authenticated_users, user_preferences, user_last_update), a fixed blocklist,
and a fixed allowed-country set; command handlers check blocked status,
authentication and a 300-second rate limit before invoking the external
rotation client (update_identity). Python dicts are embedded as association
lists keyed by the numeric user id, monotonic event-loop time as a rational
number, and replies as an inductive type with one constructor per distinct
reply the source can send.
-/

/-- Embedding of the Python str.upper() call on the strings this bot handles:
uppercase every character. -/
def pyUpper (s : String) : String := ⟨s.data.map Char.toUpper⟩

/-- Embedding of the Python str.strip() call: drop leading and trailing
whitespace. -/
def pyStrip (s : String) : String :=
  ⟨((s.data.dropWhile Char.isWhitespace).reverse.dropWhile Char.isWhitespace).reverse⟩

/-- BLOCKED_USER_IDS from torbot.py: a fixed set of blocked user ids. -/
def BLOCKED_USER_IDS : List Nat := [123456789, 987654321]

/-- AUTH_PASSWORD default value from torbot.py (used when the environment
does not override it). -/
def AUTH_PASSWORD : String := "AUTHENTICATE_PASSWORD_MUST_BE_HERE"

/-- VALID_COUNTRIES from torbot.py: the result of splitting the default
ALLOWED_COUNTRIES environment value on commas, stripping and uppercasing
each entry. The default value is the literal
NO,FI,DK,SE,IS,NL,DE,CA,CH,NZ,AU,BE,IE,EE,PT,LU,UY,TW,JP,KR, whose parse
is written out here element by element. -/
def VALID_COUNTRIES : List String :=
  ["NO", "FI", "DK", "SE", "IS", "NL", "DE", "CA", "CH", "NZ",
   "AU", "BE", "IE", "EE", "PT", "LU", "UY", "TW", "JP", "KR"]

/-- RATE_LIMIT from torbot.py: 5 * 60 seconds. Time is modelled as a
rational number of seconds since the event-loop time in the source is a
fractional monotonic clock. -/
def RATE_LIMIT : ℚ := 5 * 60

/-- is_blocked from torbot.py: membership in BLOCKED_USER_IDS. -/
def is_blocked (user_id : Nat) : Bool := BLOCKED_USER_IDS.contains user_id

/-- Lookup in a Python dict embedded as an association list (d.get(k) /
`k in d`). -/
def dictGet {α : Type} (d : List (Nat × α)) (k : Nat) : Option α :=
  match d with
  | [] => none
  | p :: rest => if p.1 = k then some p.2 else dictGet rest k

/-- Python dict assignment d[k] = v: overwrite in place when the key is
present, append otherwise. -/
def dictInsert {α : Type} (d : List (Nat × α)) (k : Nat) (v : α) : List (Nat × α) :=
  if (dictGet d k).isSome then d.map (fun p => if p.1 = k then (k, v) else p)
  else d ++ [(k, v)]

/-- Python del d[k]: remove the entry with key k. -/
def dictErase {α : Type} (d : List (Nat × α)) (k : Nat) : List (Nat × α) :=
  match d with
  | [] => []
  | p :: rest => if p.1 = k then dictErase rest k else p :: dictErase rest k

/-- The three module-level mutable mappings of torbot.py. -/
structure BotState where
  authenticated_users : List (Nat × Bool)
  user_preferences : List (Nat × String)
  user_last_update : List (Nat × ℚ)
  deriving DecidableEq

/-- All three mappings start empty at process start. -/
def initState : BotState := ⟨[], [], []⟩

/-- One constructor per distinct reply the source can send to the caller;
noReply records that a handler returned without sending anything. -/
inductive Msg where
  | blockedAudio
  | easterEggMissing
  | welcome
  | blockedQuestion
  | helpText
  | notAllowed
  | alreadyAuthenticated
  | authUsage
  | authSuccess
  | wrongPassword
  | notAuthenticated
  | pleaseWait (seconds : ℤ)
  | identityUpdated
  | updateError
  | setcountryUsage
  | invalidCountryCode
  | countrySet (code : String)
  | preferencesReset
  | resetError
  | countriesUsage
  | countriesList
  | inlineAnswer (results : Nat)
  | noReply
  deriving DecidableEq

/-- The Tor controller commands issued by one successful update_identity
call: the ExitNodes and StrictNodes option values, and whether the NEWNYM
signal was sent. -/
structure TorCommands where
  exitNodes : String
  strictNodes : String
  sentNewnym : Bool
  deriving DecidableEq

/-- update_identity from torbot.py. The external controller connection can
fail at any step; controllerFails abstracts that, and a failure re-raises
(Except.error). On the no-failure path the function branches exactly as the
source: a truthy preferred_country whose uppercase form is in the valid set
restricts ExitNodes to it with StrictNodes 1, anything else clears
ExitNodes and sets StrictNodes 0; either way NEWNYM is signalled. -/
def update_identity (valid_countries : List String) (controllerFails : Bool)
    (preferred_country : Option String) : Except Unit TorCommands :=
  if controllerFails then Except.error ()
  else
    match preferred_country with
    | some c =>
        if c ≠ "" ∧ pyUpper c ∈ valid_countries then
          Except.ok ⟨"\x7b" ++ pyUpper c ++ "\x7d", "1", true⟩
        else
          Except.ok ⟨"", "0", true⟩
    | none => Except.ok ⟨"", "0", true⟩

/-- start_command from torbot.py. Blocked users get the easter-egg audio
when the file exists and a missing-file text otherwise; everyone else gets
the welcome text. No mapping is touched. -/
def start_command (s : BotState) (user_id : Nat) (easterEggExists : Bool) :
    BotState × Msg :=
  if is_blocked user_id then
    (s, if easterEggExists then Msg.blockedAudio else Msg.easterEggMissing)
  else
    (s, Msg.welcome)

/-- help_command from torbot.py. -/
def help_command (s : BotState) (user_id : Nat) : BotState × Msg :=
  if is_blocked user_id then (s, Msg.blockedQuestion)
  else (s, Msg.helpText)

/-- auth_command from torbot.py: blocked check, then membership in
authenticated_users, then argument count, then comparison of the stripped
supplied password with the stripped configured password; on match the user
is inserted with value True. -/
def auth_command (auth_password : String) (s : BotState) (user_id : Nat)
    (args : List String) : BotState × Msg :=
  if is_blocked user_id then (s, Msg.blockedQuestion)
  else if (dictGet s.authenticated_users user_id).isSome then
    (s, Msg.alreadyAuthenticated)
  else
    match args with
    | [arg] =>
        if pyStrip arg = pyStrip auth_password then
          ({ s with authenticated_users := dictInsert s.authenticated_users user_id true },
           Msg.authSuccess)
        else (s, Msg.wrongPassword)
    | _ => (s, Msg.authUsage)

/-- update_command from torbot.py: blocked check, authentication check,
rate-limit check against user_last_update (missing entry reads as 0, the
remaining wait is truncated to whole seconds, which equals the floor since
it is positive in that branch), then one update_identity call with the
stored country preference; only on success is the timestamp written. The
third component lists the preferred-country argument of each rotation call
made. -/
def update_command (s : BotState) (user_id : Nat) (current_time : ℚ)
    (rotationFails : Bool) : BotState × Msg × List (Option String) :=
  if is_blocked user_id then
    (s, Msg.notAllowed, [])
  else if (dictGet s.authenticated_users user_id).isSome = false then
    (s, Msg.notAuthenticated, [])
  else
    let last_update := (dictGet s.user_last_update user_id).getD 0
    if current_time - last_update < RATE_LIMIT then
      (s, Msg.pleaseWait ⌊RATE_LIMIT - (current_time - last_update)⌋, [])
    else
      let preferred_country := dictGet s.user_preferences user_id
      if rotationFails then
        (s, Msg.updateError, [preferred_country])
      else
        ({ s with user_last_update := dictInsert s.user_last_update user_id current_time },
         Msg.identityUpdated, [preferred_country])

/-- set_country_command from torbot.py: blocked check, authentication
check, argument count, uppercase the argument, reject codes outside the
valid set, otherwise insert or overwrite the preference. -/
def set_country_command (valid_countries : List String) (s : BotState)
    (user_id : Nat) (args : List String) : BotState × Msg :=
  if is_blocked user_id then (s, Msg.blockedQuestion)
  else if (dictGet s.authenticated_users user_id).isSome = false then
    (s, Msg.notAuthenticated)
  else
    match args with
    | [arg] =>
        if pyUpper arg ∈ valid_countries then
          ({ s with user_preferences := dictInsert s.user_preferences user_id (pyUpper arg) },
           Msg.countrySet (pyUpper arg))
        else (s, Msg.invalidCountryCode)
    | _ => (s, Msg.setcountryUsage)

/-- reset_command from torbot.py: blocked check, authentication check,
rate-limit check, then deletion of the country preference (no-op when
absent) followed by an unrestricted update_identity call; the timestamp is
written only on success, and a failure does not restore the deleted
preference. -/
def reset_command (s : BotState) (user_id : Nat) (current_time : ℚ)
    (rotationFails : Bool) : BotState × Msg × List (Option String) :=
  if is_blocked user_id then
    (s, Msg.blockedQuestion, [])
  else if (dictGet s.authenticated_users user_id).isSome = false then
    (s, Msg.notAuthenticated, [])
  else
    let last_update := (dictGet s.user_last_update user_id).getD 0
    if current_time - last_update < RATE_LIMIT then
      (s, Msg.pleaseWait ⌊RATE_LIMIT - (current_time - last_update)⌋, [])
    else
      let s1 : BotState :=
        { s with user_preferences := dictErase s.user_preferences user_id }
      if rotationFails then
        (s1, Msg.resetError, [none])
      else
        ({ s1 with user_last_update := dictInsert s1.user_last_update user_id current_time },
         Msg.preferencesReset, [none])

/-- countries_command from torbot.py. -/
def countries_command (s : BotState) (user_id : Nat) (args : List String) :
    BotState × Msg :=
  if is_blocked user_id then (s, Msg.notAllowed)
  else if (dictGet s.authenticated_users user_id).isSome = false then
    (s, Msg.notAuthenticated)
  else if 0 < args.length then (s, Msg.countriesUsage)
  else (s, Msg.countriesList)

/-- inline_query_handler from torbot.py: an empty query returns without
answering; blocked users get an empty result list; otherwise one
unrestricted update_identity call is made and, on success, one result is
answered. An exception from the rotation call is caught and logged but
nothing is answered to the caller. -/
def inline_query_handler (s : BotState) (user_id : Nat) (query : String)
    (rotationFails : Bool) : BotState × Msg × List (Option String) :=
  if query = "" then (s, Msg.noReply, [])
  else if is_blocked user_id then (s, Msg.inlineAnswer 0, [])
  else if rotationFails then (s, Msg.noReply, [none])
  else (s, Msg.inlineAnswer 1, [none])

/-- A job registration on the telegram JobQueue: run_once fires its
callback exactly once after the delay, run_repeating fires it unboundedly
often. -/
inductive JobSpec where
  | run_once (delaySeconds : Nat)
  | run_repeating (intervalSeconds : Nat)
  deriving DecidableEq

/-- Number of times a registered job fires over the process lifetime;
none means unbounded. -/
def jobFirings : JobSpec → Option Nat
  | JobSpec.run_once _ => some 1
  | JobSpec.run_repeating _ => none

/-- The scheduler registrations made by main in torbot.py: a single
job_queue.run_once of tor_identity_update_job after the random initial
interval, and nothing else; the job body does not reschedule itself. -/
def main_scheduled_jobs (initial_interval : Nat) : List JobSpec :=
  [JobSpec.run_once initial_interval]

/-- Total number of scheduler-triggered rotation firings over the process
lifetime (none when unbounded). -/
def totalSchedulerFirings (jobs : List JobSpec) : Option Nat :=
  jobs.foldr
    (fun j acc =>
      match jobFirings j, acc with
      | some a, some b => some (a + b)
      | _, _ => none)
    (some 0)

theorem dictGet_map_overwrite {α : Type} (k : Nat) (v : α) :
    ∀ d : List (Nat × α), (dictGet d k).isSome = true →
      dictGet (d.map fun p => if p.1 = k then (k, v) else p) k = some v := by
  intro d
  induction d with
  | nil => intro h; simp [dictGet] at h
  | cons p rest ih =>
      intro h
      by_cases hp : p.1 = k
      · simp [dictGet, hp]
      · simp [dictGet, hp] at h ⊢
        exact ih h

theorem dictGet_append_new {α : Type} (k : Nat) (v : α) :
    ∀ d : List (Nat × α), dictGet d k = none →
      dictGet (d ++ [(k, v)]) k = some v := by
  intro d
  induction d with
  | nil => intro _; simp [dictGet]
  | cons p rest ih =>
      intro h
      by_cases hp : p.1 = k
      · simp [dictGet, hp] at h
      · simp only [dictGet, if_neg hp] at h
        simp only [List.cons_append, dictGet, if_neg hp]
        exact ih h

theorem dictGet_dictInsert_self {α : Type} (d : List (Nat × α)) (k : Nat) (v : α) :
    dictGet (dictInsert d k v) k = some v := by
  unfold dictInsert
  by_cases h : (dictGet d k).isSome
  · rw [if_pos h]
    exact dictGet_map_overwrite k v d h
  · rw [if_neg h]
    exact dictGet_append_new k v d (Option.not_isSome_iff_eq_none.mp h)

theorem dictGet_dictErase_self {α : Type} (k : Nat) :
    ∀ d : List (Nat × α), dictGet (dictErase d k) k = none := by
  intro d
  induction d with
  | nil => simp [dictErase, dictGet]
  | cons p rest ih =>
      by_cases hp : p.1 = k
      · simpa [dictErase, hp] using ih
      · simpa [dictErase, hp, dictGet] using ih

theorem mem_dictInsert {α : Type} (q : Nat × α) (d : List (Nat × α)) (k : Nat) (v : α) :
    q ∈ dictInsert d k v → q ∈ d ∨ q = (k, v) := by
  unfold dictInsert
  by_cases h : (dictGet d k).isSome
  · rw [if_pos h]
    intro hq
    obtain ⟨p, hp, hfq⟩ := List.mem_map.mp hq
    by_cases hpk : p.1 = k
    · right; rw [← hfq]; simp [hpk]
    · left; rw [← hfq]; simpa [hpk] using hp
  · rw [if_neg h]
    intro hq
    rcases List.mem_append.mp hq with h1 | h1
    · exact Or.inl h1
    · exact Or.inr (List.mem_singleton.mp h1)

theorem mem_dictErase {α : Type} (q : Nat × α) (k : Nat) :
    ∀ d : List (Nat × α), q ∈ dictErase d k → q ∈ d := by
  intro d
  induction d with
  | nil => simp [dictErase]
  | cons p rest ih =>
      by_cases hp : p.1 = k
      · simp only [dictErase, if_pos hp]
        intro hq
        exact List.mem_cons_of_mem p (ih hq)
      · simp only [dictErase, if_neg hp]
        intro hq
        rcases List.mem_cons.mp hq with h1 | h1
        · exact h1 ▸ List.mem_cons_self p rest
        · exact List.mem_cons_of_mem p (ih h1)

/-- The gate structure of update_command once the blocked and
authentication checks are known to pass. -/
theorem update_command_eq (s : BotState) (u : Nat) (now : ℚ) (fail : Bool)
    (hb : is_blocked u = false)
    (ha : (dictGet s.authenticated_users u).isSome = true) :
    update_command s u now fail =
      (if now - (dictGet s.user_last_update u).getD 0 < RATE_LIMIT then
        (s, Msg.pleaseWait ⌊RATE_LIMIT - (now - (dictGet s.user_last_update u).getD 0)⌋, [])
      else if fail then
        (s, Msg.updateError, [dictGet s.user_preferences u])
      else
        ({ s with user_last_update := dictInsert s.user_last_update u now },
         Msg.identityUpdated, [dictGet s.user_preferences u])) := by
  simp [update_command, hb, ha]

/-- Claim C2: for every blocked user every command handler short-circuits
at the blocked check: the returned state is the input state unchanged (so
AuthenticatedSet, CountryPreference and LastUpdateTimestamp are untouched)
and the reply is a constant that does not depend on any of the three
mappings. -/
theorem claim_C2_blocked_short_circuit
    (s : BotState) (u : Nat) (hu : is_blocked u = true)
    (auth_password : String) (args : List String) (now : ℚ)
    (fail easterEggExists : Bool) (vc : List String) (q : String) (hq : q ≠ "") :
    start_command s u easterEggExists =
      (s, if easterEggExists then Msg.blockedAudio else Msg.easterEggMissing) ∧
    help_command s u = (s, Msg.blockedQuestion) ∧
    auth_command auth_password s u args = (s, Msg.blockedQuestion) ∧
    update_command s u now fail = (s, Msg.notAllowed, []) ∧
    set_country_command vc s u args = (s, Msg.blockedQuestion) ∧
    reset_command s u now fail = (s, Msg.blockedQuestion, []) ∧
    countries_command s u args = (s, Msg.notAllowed) ∧
    inline_query_handler s u q fail = (s, Msg.inlineAnswer 0, []) := by
  refine ⟨?_, ?_, ?_, ?_, ?_, ?_, ?_, ?_⟩ <;>
    simp [start_command, help_command, auth_command, update_command,
      set_country_command, reset_command, countries_command,
      inline_query_handler, hu, hq]

/-- Witness for claim C2 at the first blocked id. -/
theorem claim_C2_witness :
    update_command initState 123456789 0 false = (initState, Msg.notAllowed, []) :=
  (claim_C2_blocked_short_circuit initState 123456789 (by decide) "" [] 0 false false
    [] "x" (by decide)).2.2.2.1

/-- Claim C4: for an authenticated non-blocked user the rate-limit check of
update_command computes elapsed = now minus the stored timestamp (0 when no
entry exists, via getD 0); when elapsed is below 300 seconds it replies with
the floor of the remaining wait and mutates nothing, and at elapsed = 100 it
replies Wait 200 while at elapsed = 300 it proceeds to the rotation call. -/
theorem claim_C4_rate_limit (s : BotState) (u : Nat)
    (hb : is_blocked u = false)
    (ha : (dictGet s.authenticated_users u).isSome = true) (fail : Bool) :
    (∀ now : ℚ, now - (dictGet s.user_last_update u).getD 0 < 300 →
       update_command s u now fail =
         (s, Msg.pleaseWait ⌊300 - (now - (dictGet s.user_last_update u).getD 0)⌋, [])) ∧
    update_command s u ((dictGet s.user_last_update u).getD 0 + 100) fail =
      (s, Msg.pleaseWait 200, []) ∧
    (update_command s u ((dictGet s.user_last_update u).getD 0 + 300) false).2.1 =
      Msg.identityUpdated ∧
    (update_command s u ((dictGet s.user_last_update u).getD 0 + 300) true).2.1 =
      Msg.updateError := by
  refine ⟨?_, ?_, ?_, ?_⟩
  · intro now h
    rw [update_command_eq s u now fail hb ha, if_pos (by norm_num [RATE_LIMIT]; exact h)]
    norm_num [RATE_LIMIT]
  · rw [update_command_eq _ _ _ _ hb ha]
    norm_num [RATE_LIMIT]
  · rw [update_command_eq _ _ _ _ hb ha]
    norm_num [RATE_LIMIT]
  · rw [update_command_eq _ _ _ _ hb ha]
    norm_num [RATE_LIMIT]

/-- Witness for claim C4: a user with timestamp entry 0 asking again at
time 100 is told to wait 200 seconds and the state is unchanged. -/
theorem claim_C4_witness :
    update_command ⟨[(7, true)], [], [(7, 0)]⟩ 7
        ((dictGet (BotState.mk [(7, true)] [] [(7, 0)]).user_last_update 7).getD 0 + 100)
        false =
      (⟨[(7, true)], [], [(7, 0)]⟩, Msg.pleaseWait 200, []) :=
  (claim_C4_rate_limit ⟨[(7, true)], [], [(7, 0)]⟩ 7 (by decide) (by decide) false).2.1

/-- Claim C6: for an authenticated non-blocked user, set_country_command
rejects a wrong argument count, uppercases the code, rejects codes outside
the valid set leaving the whole state (hence the preference) unchanged, and
otherwise inserts or overwrites the preference with the uppercased code. -/
theorem claim_C6_set_country (vc : List String) (s : BotState) (u : Nat)
    (hb : is_blocked u = false)
    (ha : (dictGet s.authenticated_users u).isSome = true) :
    (∀ args, args.length ≠ 1 →
       set_country_command vc s u args = (s, Msg.setcountryUsage)) ∧
    (∀ c, pyUpper c ∉ vc →
       set_country_command vc s u [c] = (s, Msg.invalidCountryCode)) ∧
    (∀ c, pyUpper c ∈ vc →
       set_country_command vc s u [c] =
         ({ s with user_preferences := dictInsert s.user_preferences u (pyUpper c) },
          Msg.countrySet (pyUpper c)) ∧
       dictGet (set_country_command vc s u [c]).1.user_preferences u =
         some (pyUpper c)) := by
  refine ⟨?_, ?_, ?_⟩
  · intro args hlen
    match args with
    | [] => simp [set_country_command, hb, ha]
    | [a] => simp at hlen
    | a :: b :: rest => simp [set_country_command, hb, ha]
  · intro c hc
    simp [set_country_command, hb, ha, hc]
  · intro c hc
    have h1 : set_country_command vc s u [c] =
        ({ s with user_preferences := dictInsert s.user_preferences u (pyUpper c) },
         Msg.countrySet (pyUpper c)) := by
      simp [set_country_command, hb, ha, hc]
    refine ⟨h1, ?_⟩
    rw [h1]
    exact dictGet_dictInsert_self s.user_preferences u (pyUpper c)

/-- Witness for claim C6: setting jp stores JP, and zz is rejected with the
state unchanged. -/
theorem claim_C6_witness :
    set_country_command VALID_COUNTRIES ⟨[(7, true)], [], []⟩ 7 ["zz"] =
      (⟨[(7, true)], [], []⟩, Msg.invalidCountryCode) :=
  (claim_C6_set_country VALID_COUNTRIES ⟨[(7, true)], [], []⟩ 7 (by decide)
    (by decide)).2.1 "zz" (by decide)

/-- Claim C8 evaluation: main registers exactly one run_once job for
tor_identity_update_job and the job body never reschedules, so over the
whole process lifetime the scheduler triggers rotation exactly once — not
periodically, and not more than once. -/
theorem claim_C8_scheduler_fires_once :
    ∀ initial_interval : Nat,
      totalSchedulerFirings (main_scheduled_jobs initial_interval) = some 1 := by
  intro initial_interval
  rfl

/-- Claim C10: update_identity with an absent preferred country, or one
whose uppercase form is outside the valid set, clears ExitNodes, sets
StrictNodes to 0, still sends the NEWNYM signal, and does not error by
itself. -/
theorem claim_C10_invalid_country_degrades (vc : List String) (pc : Option String)
    (h : ∀ c, pc = some c → pyUpper c ∉ vc) :
    update_identity vc false pc = Except.ok ⟨"", "0", true⟩ := by
  cases pc with
  | none => simp [update_identity]
  | some c =>
      have hc := h c rfl
      simp [update_identity, hc]

/-- Witness for claim C10: the invalid code zz degrades to an unrestricted
rotation. -/
theorem claim_C10_witness :
    update_identity VALID_COUNTRIES false (some "zz") =
      Except.ok ⟨"", "0", true⟩ :=
  claim_C10_invalid_country_degrades VALID_COUNTRIES (some "zz")
    (fun c hc => by injection hc with h2; subst h2; decide)

/-- Claim C3: auth_command checks membership before the argument count; a
first call with the correct stripped password succeeds and inserts the user
with value true, any later call answers AlreadyAuthenticated whatever its
arguments, and a wrong password answers WrongPassword leaving the state
unchanged. -/
theorem claim_C3_authenticate (auth_password : String) (s : BotState) (u : Nat)
    (hb : is_blocked u = false)
    (hna : dictGet s.authenticated_users u = none) :
    (∀ p, pyStrip p = pyStrip auth_password →
       auth_command auth_password s u [p] =
         ({ s with authenticated_users := dictInsert s.authenticated_users u true },
          Msg.authSuccess) ∧
       dictGet (auth_command auth_password s u [p]).1.authenticated_users u =
         some true) ∧
    (∀ p args2, pyStrip p = pyStrip auth_password →
       auth_command auth_password ((auth_command auth_password s u [p]).1) u args2 =
         ((auth_command auth_password s u [p]).1, Msg.alreadyAuthenticated)) ∧
    (∀ s2 : BotState, (dictGet s2.authenticated_users u).isSome = true →
       ∀ args2, auth_command auth_password s2 u args2 = (s2, Msg.alreadyAuthenticated)) ∧
    (∀ p, pyStrip p ≠ pyStrip auth_password →
       auth_command auth_password s u [p] = (s, Msg.wrongPassword)) := by
  have hsecond : ∀ s2 : BotState, (dictGet s2.authenticated_users u).isSome = true →
      ∀ args2, auth_command auth_password s2 u args2 = (s2, Msg.alreadyAuthenticated) := by
    intro s2 h2 args2
    simp [auth_command, hb, h2]
  have hfirst : ∀ p, pyStrip p = pyStrip auth_password →
      auth_command auth_password s u [p] =
        ({ s with authenticated_users := dictInsert s.authenticated_users u true },
         Msg.authSuccess) := by
    intro p hp
    simp [auth_command, hb, hna, hp]
  refine ⟨?_, ?_, hsecond, ?_⟩
  · intro p hp
    refine ⟨hfirst p hp, ?_⟩
    rw [hfirst p hp]
    exact dictGet_dictInsert_self s.authenticated_users u true
  · intro p args2 hp
    refine hsecond _ ?_ args2
    rw [hfirst p hp]
    rw [dictGet_dictInsert_self s.authenticated_users u true]
    rfl
  · intro p hp
    simp [auth_command, hb, hna, hp]

/-- Witness for claim C3: authenticating twice from the empty state yields
AlreadyAuthenticated on the second call even with different arguments. -/
theorem claim_C3_witness :
    auth_command AUTH_PASSWORD
        ((auth_command AUTH_PASSWORD initState 7 [AUTH_PASSWORD]).1) 7 ["other"] =
      ((auth_command AUTH_PASSWORD initState 7 [AUTH_PASSWORD]).1,
       Msg.alreadyAuthenticated) :=
  (claim_C3_authenticate AUTH_PASSWORD initState 7 (by decide) (by decide)).2.1
    AUTH_PASSWORD ["other"] rfl

/-- Claim C9: for an authenticated, non-blocked, non-rate-limited user with
a stored country preference, a /reset whose rotation call fails still
deletes the preference and does not restore it, and does not write the
timestamp: the failed reset is not atomic with respect to
CountryPreference. -/
theorem claim_C9_reset_not_atomic (s : BotState) (u : Nat)
    (hb : is_blocked u = false)
    (ha : (dictGet s.authenticated_users u).isSome = true)
    (now : ℚ)
    (hrl : ¬(now - (dictGet s.user_last_update u).getD 0 < RATE_LIMIT))
    (c : String) (_hc : dictGet s.user_preferences u = some c) :
    reset_command s u now true =
      ({ s with user_preferences := dictErase s.user_preferences u },
       Msg.resetError, [none]) ∧
    dictGet (reset_command s u now true).1.user_preferences u = none ∧
    (reset_command s u now true).1.user_last_update = s.user_last_update := by
  have h1 : reset_command s u now true =
      ({ s with user_preferences := dictErase s.user_preferences u },
       Msg.resetError, [none]) := by
    simp [reset_command, hb, ha, hrl]
  refine ⟨h1, ?_, ?_⟩
  · rw [h1]
    exact dictGet_dictErase_self u s.user_preferences
  · rw [h1]

/-- Witness for claim C9: a stored JP preference is gone after a failed
reset, and the timestamp map is untouched. -/
theorem claim_C9_witness :
    reset_command ⟨[(7, true)], [(7, "JP")], []⟩ 7 1000 true =
      (⟨[(7, true)], [], []⟩, Msg.resetError, [none]) ∧
    dictGet (reset_command ⟨[(7, true)], [(7, "JP")], []⟩ 7 1000 true).1.user_preferences
      7 = none :=
  ⟨(claim_C9_reset_not_atomic ⟨[(7, true)], [(7, "JP")], []⟩ 7 (by decide) (by decide)
      1000 (by norm_num [dictGet, RATE_LIMIT]) "JP" (by decide)).1,
   (claim_C9_reset_not_atomic ⟨[(7, true)], [(7, "JP")], []⟩ 7 (by decide) (by decide)
      1000 (by norm_num [dictGet, RATE_LIMIT]) "JP" (by decide)).2.1⟩

/-- Claim C1 counterexample: a non-blocked user sends a nonempty inline
query, the rotation call raises; the handler catches the exception (it
returns normally) and writes no timestamp, but the caller is sent nothing
at all — not a generic failure notice as the claim states for all three
rotation paths. -/
theorem claim_C1_counterexample :
    inline_query_handler initState 5 "rotate" true = (initState, Msg.noReply, [none]) := by
  decide

/-- Claim C1 as amended: on a failed rotation every rotation-triggering
handler catches the exception at the command boundary and leaves
LastUpdateTimestamp unwritten; /update and /reset reply with their generic
failure notice, while the inline-query path sends the caller nothing. -/
theorem claim_C1_rotation_failure (s : BotState) (u : Nat)
    (hb : is_blocked u = false)
    (ha : (dictGet s.authenticated_users u).isSome = true)
    (now : ℚ)
    (hrl : ¬(now - (dictGet s.user_last_update u).getD 0 < RATE_LIMIT))
    (q : String) (hq : q ≠ "") :
    update_command s u now true = (s, Msg.updateError, [dictGet s.user_preferences u]) ∧
    reset_command s u now true =
      ({ s with user_preferences := dictErase s.user_preferences u },
       Msg.resetError, [none]) ∧
    (reset_command s u now true).1.user_last_update = s.user_last_update ∧
    inline_query_handler s u q true = (s, Msg.noReply, [none]) := by
  have h2 : reset_command s u now true =
      ({ s with user_preferences := dictErase s.user_preferences u },
       Msg.resetError, [none]) := by
    simp [reset_command, hb, ha, hrl]
  refine ⟨?_, h2, ?_, ?_⟩
  · rw [update_command_eq s u now true hb ha, if_neg hrl]
    rfl
  · rw [h2]
  · simp [inline_query_handler, hb, hq]

/-- Witness for claim C1: failed update and reset leave the timestamp map
empty and reply with their generic error messages. -/
theorem claim_C1_witness :
    update_command ⟨[(7, true)], [(7, "JP")], []⟩ 7 1000 true =
      (⟨[(7, true)], [(7, "JP")], []⟩, Msg.updateError, [some "JP"]) :=
  (claim_C1_rotation_failure ⟨[(7, true)], [(7, "JP")], []⟩ 7 (by decide) (by decide)
    1000 (by norm_num [dictGet, RATE_LIMIT]) "x" (by decide)).1


/-- start_command never changes the state. -/
theorem start_command_state_frame (s : BotState) (u : Nat) (egg : Bool) :
    (start_command s u egg).1 = s := by
  simp only [start_command]
  (repeat' split) <;> rfl

/-- help_command never changes the state. -/
theorem help_command_state_frame (s : BotState) (u : Nat) :
    (help_command s u).1 = s := by
  simp only [help_command]
  (repeat' split) <;> rfl

/-- countries_command never changes the state. -/
theorem countries_command_state_frame (s : BotState) (u : Nat) (args : List String) :
    (countries_command s u args).1 = s := by
  simp only [countries_command]
  (repeat' split) <;> rfl

/-- inline_query_handler never changes the state. -/
theorem inline_query_handler_state_frame (s : BotState) (u : Nat) (q : String)
    (fail : Bool) : (inline_query_handler s u q fail).1 = s := by
  simp only [inline_query_handler]
  (repeat' split) <;> rfl

/-- auth_command never changes the preference map. -/
theorem auth_command_prefs_frame (pw : String) (s : BotState) (u : Nat)
    (args : List String) :
    (auth_command pw s u args).1.user_preferences = s.user_preferences := by
  simp only [auth_command]
  rcases args with _ | ⟨a, _ | ⟨b, r⟩⟩ <;> (repeat' split) <;> rfl

/-- update_command never changes the preference map. -/
theorem update_command_prefs_frame (s : BotState) (u : Nat) (now : ℚ) (fail : Bool) :
    (update_command s u now fail).1.user_preferences = s.user_preferences := by
  simp only [update_command]
  (repeat' split) <;> rfl

/-- reset_command either leaves the preference map alone or erases the
entry of the calling user. -/
theorem reset_command_prefs_frame (s : BotState) (u : Nat) (now : ℚ) (fail : Bool) :
    (reset_command s u now fail).1.user_preferences = s.user_preferences ∨
    (reset_command s u now fail).1.user_preferences = dictErase s.user_preferences u := by
  simp only [reset_command]
  (repeat' split) <;> first | exact Or.inl rfl | exact Or.inr rfl

/-- set_country_command either leaves the preference map alone or inserts
an uppercased code it has checked against the valid set. -/
theorem set_country_command_prefs_frame (vc : List String) (s : BotState) (u : Nat)
    (args : List String) :
    (set_country_command vc s u args).1.user_preferences = s.user_preferences ∨
    ∃ arg, pyUpper arg ∈ vc ∧
      (set_country_command vc s u args).1.user_preferences =
        dictInsert s.user_preferences u (pyUpper arg) := by
  by_cases hb : is_blocked u = true
  · left
    simp [set_country_command, hb]
  · by_cases haa : (dictGet s.authenticated_users u).isSome = false
    · left
      simp [set_country_command, hb, haa]
    · rcases args with _ | ⟨a, _ | ⟨b, r⟩⟩
      · left
        simp [set_country_command, hb, haa]
      · by_cases hm : pyUpper a ∈ vc
        · right
          exact ⟨a, hm, by simp [set_country_command, hb, haa, hm]⟩
        · left
          simp [set_country_command, hb, haa, hm]
      · left
        simp [set_country_command, hb, haa]

/-- Every stored country preference is a member of the given valid set. -/
def prefsValid (vc : List String) (d : List (Nat × String)) : Prop :=
  ∀ p ∈ d, p.2 ∈ vc

/-- Claim C7: the invariant that every stored CountryPreference value lies
in the allowed set holds in the initial empty state and is preserved by
every handler: set_country_command inserts only verified codes,
reset_command only removes entries, and no other handler writes the
preference map. -/
theorem claim_C7_country_invariant (vc : List String) :
    prefsValid vc initState.user_preferences ∧
    (∀ auth_password s u args, prefsValid vc s.user_preferences →
       prefsValid vc ((auth_command auth_password s u args).1.user_preferences)) ∧
    (∀ s u now fail, prefsValid vc s.user_preferences →
       prefsValid vc ((update_command s u now fail).1.user_preferences)) ∧
    (∀ s u args, prefsValid vc s.user_preferences →
       prefsValid vc ((set_country_command vc s u args).1.user_preferences)) ∧
    (∀ s u now fail, prefsValid vc s.user_preferences →
       prefsValid vc ((reset_command s u now fail).1.user_preferences)) ∧
    (∀ s u egg, prefsValid vc s.user_preferences →
       prefsValid vc ((start_command s u egg).1.user_preferences)) ∧
    (∀ s u, prefsValid vc s.user_preferences →
       prefsValid vc ((help_command s u).1.user_preferences)) ∧
    (∀ s u args, prefsValid vc s.user_preferences →
       prefsValid vc ((countries_command s u args).1.user_preferences)) ∧
    (∀ s u q fail, prefsValid vc s.user_preferences →
       prefsValid vc ((inline_query_handler s u q fail).1.user_preferences)) := by
  refine ⟨?_, ?_, ?_, ?_, ?_, ?_, ?_, ?_, ?_⟩
  · intro p hp
    simp [initState] at hp
  · intro auth_password s u args hv
    rw [auth_command_prefs_frame]
    exact hv
  · intro s u now fail hv
    rw [update_command_prefs_frame]
    exact hv
  · intro s u args hv
    rcases set_country_command_prefs_frame vc s u args with h | ⟨arg, hmem, h⟩
    · rw [h]; exact hv
    · rw [h]
      intro p hp
      rcases mem_dictInsert p s.user_preferences u (pyUpper arg) hp with h1 | h1
      · exact hv p h1
      · rw [h1]
        exact hmem
  · intro s u now fail hv
    rcases reset_command_prefs_frame s u now fail with h | h
    · rw [h]; exact hv
    · rw [h]
      intro p hp
      exact hv p (mem_dictErase p u s.user_preferences hp)
  · intro s u egg hv
    rw [start_command_state_frame]
    exact hv
  · intro s u hv
    rw [help_command_state_frame]
    exact hv
  · intro s u args hv
    rw [countries_command_state_frame]
    exact hv
  · intro s u q fail hv
    rw [inline_query_handler_state_frame]
    exact hv

/-- Witness for claim C7: after setting jp from a valid state every stored
preference is still in the allowed set. -/
theorem claim_C7_witness :
    prefsValid VALID_COUNTRIES
      ((set_country_command VALID_COUNTRIES ⟨[(7, true)], [], []⟩ 7
          ["jp"]).1.user_preferences) :=
  (claim_C7_country_invariant VALID_COUNTRIES).2.2.2.1 ⟨[(7, true)], [], []⟩ 7 ["jp"]
    (by intro p hp; simp at hp)

/-- State after the C5 scenario authentication step: user 7 authenticates
with the correct password from the initial state. -/
def scenarioAfterAuth : BotState :=
  (auth_command AUTH_PASSWORD initState 7 [AUTH_PASSWORD]).1

/-- State after the C5 scenario setcountry jp step. -/
def scenarioAfterSetCountry : BotState :=
  (set_country_command VALID_COUNTRIES scenarioAfterAuth 7 ["jp"]).1

/-- Result of the first /update of the C5 scenario, issued at time t1. -/
def scenarioFirstUpdate (t1 : ℚ) : BotState × Msg × List (Option String) :=
  update_command scenarioAfterSetCountry 7 t1 false

/-- Result of the second /update of the C5 scenario, issued at time t2. -/
def scenarioSecondUpdate (t1 t2 : ℚ) : BotState × Msg × List (Option String) :=
  update_command (scenarioFirstUpdate t1).1 7 t2 false

/-- Claim C5 counterexample: in the auth, setcountry jp, update, update
scenario with the first update at time 300 and the second at 599.5 — inside
the rate window — the second reply announces a wait of 0 seconds, which is
not a positive integer; the rotation client is still invoked exactly once
across the two updates. -/
theorem claim_C5_counterexample :
    scenarioSecondUpdate 300 (1199 / 2) =
      ((scenarioFirstUpdate 300).1, Msg.pleaseWait 0, []) ∧
    (scenarioFirstUpdate 300).2.2 = [some "JP"] ∧
    (scenarioSecondUpdate 300 (1199 / 2)).2.2 = [] := by
  have hs2 : scenarioAfterSetCountry = ⟨[(7, true)], [(7, "JP")], []⟩ := by decide
  have hr3 : scenarioFirstUpdate 300 =
      (⟨[(7, true)], [(7, "JP")], [(7, 300)]⟩, Msg.identityUpdated, [some "JP"]) := by
    unfold scenarioFirstUpdate
    rw [hs2, update_command_eq _ _ _ _ (by decide) (by decide)]
    rw [if_neg (by norm_num [dictGet, RATE_LIMIT])]
    simp [dictGet, dictInsert]
  have hr4 : scenarioSecondUpdate 300 (1199 / 2) =
      (⟨[(7, true)], [(7, "JP")], [(7, 300)]⟩, Msg.pleaseWait 0, []) := by
    unfold scenarioSecondUpdate
    rw [hr3, update_command_eq _ _ _ _ (by decide) (by decide)]
    rw [if_pos (by norm_num [dictGet, RATE_LIMIT])]
    norm_num [dictGet, RATE_LIMIT]
  refine ⟨?_, ?_, ?_⟩
  · rw [hr4, hr3]
  · rw [hr3]
  · rw [hr4]

/-- Claim C5 as amended: in the scenario, whenever the second /update falls
inside the rate window its reply announces the floor of the remaining wait,
a non-negative number of seconds that is positive whenever at least one
whole second remains (elapsed at most 299 s), and the rotation client is
invoked exactly once across the two updates. -/
theorem claim_C5_second_update_rate_limited (t1 t2 : ℚ)
    (h1 : RATE_LIMIT ≤ t1) (h2 : t2 - t1 < RATE_LIMIT) :
    scenarioFirstUpdate t1 =
      (⟨[(7, true)], [(7, "JP")], [(7, t1)]⟩, Msg.identityUpdated, [some "JP"]) ∧
    scenarioSecondUpdate t1 t2 =
      ((scenarioFirstUpdate t1).1, Msg.pleaseWait ⌊RATE_LIMIT - (t2 - t1)⌋, []) ∧
    (scenarioFirstUpdate t1).2.2.length + (scenarioSecondUpdate t1 t2).2.2.length = 1 ∧
    0 ≤ ⌊RATE_LIMIT - (t2 - t1)⌋ ∧
    (t2 - t1 ≤ RATE_LIMIT - 1 → 0 < ⌊RATE_LIMIT - (t2 - t1)⌋) := by
  have hs2 : scenarioAfterSetCountry = ⟨[(7, true)], [(7, "JP")], []⟩ := by decide
  have hr3 : scenarioFirstUpdate t1 =
      (⟨[(7, true)], [(7, "JP")], [(7, t1)]⟩, Msg.identityUpdated, [some "JP"]) := by
    unfold scenarioFirstUpdate
    rw [hs2, update_command_eq _ _ _ _ (by decide) (by decide)]
    rw [if_neg (by simp only [dictGet, Option.getD_none, sub_zero]; exact not_lt.mpr h1)]
    simp [dictGet, dictInsert]
  have hr4 : scenarioSecondUpdate t1 t2 =
      ((scenarioFirstUpdate t1).1, Msg.pleaseWait ⌊RATE_LIMIT - (t2 - t1)⌋, []) := by
    unfold scenarioSecondUpdate
    rw [hr3, update_command_eq _ _ _ _ (by decide) (by simp [dictGet])]
    rw [if_pos (by simpa [dictGet] using h2)]
    simp [dictGet]
  refine ⟨hr3, hr4, ?_, ?_, ?_⟩
  · rw [hr3, hr4]
    simp
  · refine Int.le_floor.mpr ?_
    push_cast
    linarith
  · intro hback
    have hfloor1 : (1 : ℤ) ≤ ⌊RATE_LIMIT - (t2 - t1)⌋ := by
      refine Int.le_floor.mpr ?_
      push_cast
      linarith
    exact lt_of_lt_of_le zero_lt_one hfloor1

/-- Witness for claim C5 as amended: first update at 300, second at 400;
the second reply announces a wait of 100 seconds and only the first update
rotated. -/
theorem claim_C5_witness :
    scenarioSecondUpdate 300 400 =
      ((scenarioFirstUpdate 300).1, Msg.pleaseWait ⌊RATE_LIMIT - ((400 : ℚ) - 300)⌋, []) ∧
    (scenarioFirstUpdate 300).2.2.length + (scenarioSecondUpdate 300 400).2.2.length = 1 :=
  ⟨(claim_C5_second_update_rate_limited 300 400 (by norm_num [RATE_LIMIT])
      (by norm_num [RATE_LIMIT])).2.1,
   (claim_C5_second_update_rate_limited 300 400 (by norm_num [RATE_LIMIT])
      (by norm_num [RATE_LIMIT])).2.2.1⟩
